import Mathlib

/-!
Verification development for the AirSense AI desktop application
(`tkinter v1/AQAI.py`).  The Python fragments relevant to the claims are
shallowly embedded: dictionaries arriving from the JSON HTTP clients become
the inductive `PyVal`, Python exceptions become `PyExc`, fallible code runs
in `Except PyExc`, and the UI orchestration layer is modelled as pure
functions from an environment of client outcomes to traces of external
calls and UI-thread callbacks.

Modelling conventions, stated once here:
* machine floats are modelled as `Rat` (the claims only involve exactly
  representable decimal values);
* Python standard-library behaviour (`int`, `float`, `str.split`,
  `datetime.fromisoformat` in its Python 3.11 form, `os.path.splitext`,
  `re.match` of the one coordinate pattern of the source) is modelled from
  its documented behaviour, with ASCII digit/whitespace classes, without
  underscore digit separators and without inf/nan literals, and without
  month/day range validation in the ISO-8601 check — none of which is
  exercised by any claim;
* `\x7b:.2f\x7d` numeric rendering and the rendering of non-string values
  into f-strings are simplified to `toString`, but their error behaviour
  (`ValueError` on strings, `TypeError` otherwise) is modelled exactly;
* exception message texts are carried only where the source renders them
  into user-visible strings.
-/

/-- Python exceptions raised by the embedded fragments.  Catch clauses only
inspect the constructor; `valueError` carries its message because the source
interpolates it into user-visible text. -/
inductive PyExc where
  | keyError
  | indexError
  | typeError
  | valueError (msg : String)
  | attributeError

/-- Python values as delivered by `json.loads` / `requests.Response.json`. -/
inductive PyVal where
  | none
  | bool (b : Bool)
  | int (n : Int)
  | float (q : Rat)
  | str (s : String)
  | list (xs : List PyVal)
  | dict (kvs : List (String × PyVal))

/-- Python truthiness (`bool(v)`). -/
def pyTruthy : PyVal → Bool
  | .none => false
  | .bool b => b
  | .int n => !(n == 0)
  | .float q => !(q == 0)
  | .str s => !(s == "")
  | .list xs => !xs.isEmpty
  | .dict kvs => !kvs.isEmpty

/-- First binding of a key in a dictionary. -/
def lookupKey (kvs : List (String × PyVal)) (k : String) : Option PyVal :=
  match kvs.find? (fun p => p.1 == k) with
  | some p => some p.2
  | Option.none => Option.none

/-- `v.get(k, d)`: `AttributeError` when `v` is not a dictionary. -/
def pyGet (v : PyVal) (k : String) (d : PyVal) : Except PyExc PyVal :=
  match v with
  | .dict kvs => .ok ((lookupKey kvs k).getD d)
  | _ => .error .attributeError

/-- `v[k]` for a string key: `KeyError` when missing, `TypeError` when `v`
does not support string subscripts. -/
def pyIndexKey (v : PyVal) (k : String) : Except PyExc PyVal :=
  match v with
  | .dict kvs =>
    match lookupKey kvs k with
    | some x => .ok x
    | Option.none => .error .keyError
  | _ => .error .typeError

/-- `v[i]` for a natural index. -/
def pyIndexNat (v : PyVal) (i : Nat) : Except PyExc PyVal :=
  match v with
  | .list xs =>
    match xs.get? i with
    | some x => .ok x
    | Option.none => .error .indexError
  | .str s =>
    match s.data.get? i with
    | some c => .ok (.str (String.mk [c]))
    | Option.none => .error .indexError
  | .dict _ => .error .keyError
  | _ => .error .typeError

/-- `v == "lit"` for a string literal: Python equality across types is
`False` unless both sides are equal strings. -/
def pyStrEq (v : PyVal) (lit : String) : Bool :=
  match v with
  | .str s => s == lit
  | _ => false

/-- `k in v` for a string `k`: key membership for dictionaries, substring
test for strings, element membership for lists, `TypeError` otherwise. -/
def pyContains (v : PyVal) (k : String) : Except PyExc Bool :=
  match v with
  | .dict kvs => .ok ((lookupKey kvs k).isSome)
  | .str s => .ok (decide (List.IsInfix k.data s.data))
  | .list xs => .ok (xs.any fun x => match x with | .str s2 => s2 == k | _ => false)
  | _ => .error .typeError

/-- `str(v)`, simplified for containers; claims never inspect those texts. -/
def pyStrOf : PyVal → String
  | .none => "None"
  | .bool b => if b then "True" else "False"
  | .int n => toString n
  | .float q => toString q
  | .str s => s
  | .list _ => "[list]"
  | .dict _ => "[dict]"

/-- ASCII decimal digit, the model of the pattern class `\d` and of the
digits accepted by `int()` / `float()`. -/
def isAsciiDigit (c : Char) : Bool :=
  decide ('0' ≤ c) && decide (c ≤ '9')

/-- The ASCII whitespace set of Python's `str.strip`, `\s`, `int()` and
`float()`. -/
def isPySpace (c : Char) : Bool :=
  c == ' ' || c == '\t' || c == '\n' || c == '\r' || c == '\x0b' || c == '\x0c'

/-- Numeric value of a digit run. -/
def digitsVal (ds : List Char) : Nat :=
  ds.foldl (fun a c => 10 * a + (c.toNat - 48)) 0

/-- `int(s)` on a string: optional surrounding whitespace, optional sign,
one or more digits. -/
def parseIntStr (s : String) : Option Int :=
  let cs := s.data.dropWhile isPySpace
  let (neg, cs1) : Bool × List Char :=
    match cs with
    | '-' :: t => (true, t)
    | '+' :: t => (false, t)
    | _ => (false, cs)
  let ds := cs1.takeWhile isAsciiDigit
  let rest := cs1.dropWhile isAsciiDigit
  if !ds.isEmpty && rest.all isPySpace then
    some (if neg then -(digitsVal ds : Int) else (digitsVal ds : Int))
  else Option.none

/-- Value of a parsed decimal with optional fractional digits and exponent. -/
def numVal (neg : Bool) (ip fp : List Char) (eneg : Bool) (ed : List Char) : Rat :=
  let base : Rat := (digitsVal ip : Rat) + (digitsVal fp : Rat) / ((10 : Rat) ^ fp.length)
  let scaled : Rat :=
    if eneg then base / ((10 : Rat) ^ digitsVal ed) else base * ((10 : Rat) ^ digitsVal ed)
  if neg then -scaled else scaled

/-- Exponent suffix of a float literal: sign, one or more digits, then only
trailing whitespace. -/
def withExp (neg : Bool) (ip fp : List Char) (t : List Char) : Option Rat :=
  let (eneg, t1) : Bool × List Char :=
    match t with
    | '-' :: r => (true, r)
    | '+' :: r => (false, r)
    | _ => (false, t)
  let ed := t1.takeWhile isAsciiDigit
  let rest := t1.dropWhile isAsciiDigit
  if !ed.isEmpty && rest.all isPySpace then some (numVal neg ip fp eneg ed) else Option.none

/-- After the mantissa of a float literal: optional exponent, then only
trailing whitespace. -/
def finishNum (neg : Bool) (ip fp : List Char) (cs : List Char) : Option Rat :=
  match cs with
  | [] => some (numVal neg ip fp false [])
  | c :: t =>
    if c == 'e' || c == 'E' then withExp neg ip fp t
    else if (c :: t).all isPySpace then some (numVal neg ip fp false []) else Option.none

/-- Unsigned part of a float literal: `digits+ (. digits*)?` or `. digits+`. -/
def parseUnsigned (cs : List Char) (neg : Bool) : Option Rat :=
  let ip := cs.takeWhile isAsciiDigit
  let cs1 := cs.dropWhile isAsciiDigit
  match cs1 with
  | [] => if ip.isEmpty then Option.none else finishNum neg ip [] []
  | c :: t =>
    if c == '.' then
      let fp := t.takeWhile isAsciiDigit
      let cs2 := t.dropWhile isAsciiDigit
      if ip.isEmpty && fp.isEmpty then Option.none else finishNum neg ip fp cs2
    else if ip.isEmpty then Option.none else finishNum neg ip [] (c :: t)

/-- `float(s)` on the characters of a string. -/
def parseFloatChars (cs0 : List Char) : Option Rat :=
  match cs0.dropWhile isPySpace with
  | [] => Option.none
  | c :: t =>
    if c == '-' then parseUnsigned t true
    else if c == '+' then parseUnsigned t false
    else parseUnsigned (c :: t) false

/-- `int(v)`. -/
def pyInt : PyVal → Except PyExc Int
  | .int n => .ok n
  | .bool b => .ok (if b then 1 else 0)
  | .float q => .ok (if q ≥ 0 then q.floor else q.ceil)
  | .str s =>
    match parseIntStr s with
    | some n => .ok n
    | Option.none => .error (.valueError s!"invalid literal for int() with base 10: '{s}'")
  | _ => .error .typeError

/-- `float(v)`. -/
def pyFloat : PyVal → Except PyExc Rat
  | .int n => .ok (n : Rat)
  | .bool b => .ok (if b then 1 else 0)
  | .float q => .ok q
  | .str s =>
    match parseFloatChars s.data with
    | some q => .ok q
    | Option.none => .error (.valueError s!"could not convert string to float: '{s}'")
  | _ => .error .typeError

/-- `s.strip()`. -/
def pyStrip (s : String) : String :=
  String.mk (((s.data.dropWhile isPySpace).reverse.dropWhile isPySpace).reverse)

/-- `s.split(',')` on a character list: split at every comma, keeping empty
segments, never returning an empty list. -/
def pySplitList : List Char → List (List Char)
  | [] => [[]]
  | c :: t =>
    if c == ',' then [] :: pySplitList t
    else
      match pySplitList t with
      | h :: r => (c :: h) :: r
      | [] => [[c]]

/-- Exactly `n` ASCII digits, returning the remainder. -/
def eatDigitsN : Nat → List Char → Option (List Char)
  | 0, cs => some cs
  | _ + 1, [] => Option.none
  | n + 1, c :: cs => if isAsciiDigit c then eatDigitsN n cs else Option.none

/-- UTC-offset suffix accepted by `datetime.fromisoformat` (Python 3.11):
empty, `Z`, or a signed `HH`, `HHMM`, `HH:MM`. -/
def isoOffsetOk : List Char → Bool
  | [] => true
  | ['Z'] => true
  | c :: cs =>
    (c == '+' || c == '-') &&
      (match eatDigitsN 2 cs with
       | some [] => true
       | some (':' :: r) => (match eatDigitsN 2 r with | some [] => true | _ => false)
       | some r => (match eatDigitsN 2 r with | some [] => true | _ => false)
       | Option.none => false)

/-- Time-of-day part accepted by `datetime.fromisoformat`:
`HH[:MM[:SS[.frac]]]` followed by an optional offset. -/
def isoTimeOk (cs : List Char) : Bool :=
  match eatDigitsN 2 cs with
  | Option.none => false
  | some rest =>
    match rest with
    | ':' :: r1 =>
      match eatDigitsN 2 r1 with
      | Option.none => false
      | some rest2 =>
        match rest2 with
        | ':' :: r2 =>
          match eatDigitsN 2 r2 with
          | Option.none => false
          | some rest3 =>
            match rest3 with
            | '.' :: r3 =>
              let fs := r3.takeWhile isAsciiDigit
              let rr := r3.dropWhile isAsciiDigit
              !fs.isEmpty && isoOffsetOk rr
            | _ => isoOffsetOk rest3
        | _ => isoOffsetOk rest2
    | _ => isoOffsetOk rest

/-- Modelled from the documented behaviour of Python 3.11
`datetime.fromisoformat` (standard library, not repository code): the shapes
of string it accepts, without month/day range validation. -/
def fromisoOk (s : String) : Bool :=
  match eatDigitsN 4 s.data with
  | some ('-' :: r1) =>
    match eatDigitsN 2 r1 with
    | some ('-' :: r2) =>
      match eatDigitsN 2 r2 with
      | some [] => true
      | some (c :: rest) => (c == 'T' || c == ' ') && isoTimeOk rest
      | Option.none => false
    | _ => false
  | _ => false

/-- The timestamp stored on the record: a parsed ISO string, or the
`datetime.now(timezone.utc)` default taken when the feed carries no
truthy `time.iso` field. -/
inductive PyTimestamp where
  | iso (s : String)
  | nowUTC

/-- The record parsed from one feed response (`AQIData` in the source).
When a parse exception is caught the source leaves the object partially
built with `is_valid = False`; here such a record carries these default
field values, which no claim reads. -/
structure AQIData where
  is_valid : Bool
  overall_aqi : Int := 0
  location_name : String := ""
  city : String := ""
  country : String := "N/A"
  latitude : PyVal := .none
  longitude : PyVal := .none
  distance_km : Int := 0
  timestamp : PyTimestamp := .nowUTC
  pollutants : List (String × Rat) := []
  dominant_pollutant : String := ""
  aqi_category_name : String := "No Data"
  aqi_category_theme : String := "secondary"

/-- The ordered category table of `AQIData.__init__`, in source order. -/
def aqiCategoryTable : List (String × Int × Int × String) :=
  [("Good", 0, 50, "success"),
   ("Moderate", 51, 100, "warning"),
   ("Unhealthy for Sensitive", 101, 150, "warning"),
   ("Unhealthy", 151, 200, "danger"),
   ("Very Unhealthy", 201, 300, "danger"),
   ("Hazardous", 301, 5000, "danger")]

/-- The classification loop of `AQIData.__init__`: first entry of the
ordered table whose inclusive range contains the index; the defaults
`"No Data"`/`"secondary"` otherwise. -/
def classifyAQI (aqi : Int) : String × String :=
  match aqiCategoryTable.find? (fun e => decide (e.2.1 ≤ aqi ∧ aqi ≤ e.2.2.1)) with
  | some e => (e.1, e.2.2.2)
  | Option.none => ("No Data", "secondary")

/-- `location_name.split(',')[0]`: the segment before the first comma. -/
def firstCommaSegment (s : String) : String :=
  String.mk (s.data.takeWhile (fun c => !(c == ',')))

/-- `s.upper()`, ASCII case mapping over the characters. -/
def pyUpper (s : String) : String := String.mk (s.data.map Char.toUpper)

/-- `s.lower()`, ASCII case mapping over the characters. -/
def pyLower (s : String) : String := String.mk (s.data.map Char.toLower)

/-- The pollutant dictionary comprehension of `AQIData.__init__`, entry by
entry: keep entries whose value carries a key `v`, converting with `float`. -/
def AQIData.buildPollutantsGo : List (String × PyVal) → Except PyExc (List (String × Rat))
  | [] => .ok []
  | (k, details) :: t =>
    match pyContains details "v" with
    | .error e => .error e
    | .ok hasV =>
      if hasV then
        match pyIndexKey details "v" with
        | .error e => .error e
        | .ok v =>
          match pyFloat v with
          | .error e => .error e
          | .ok f =>
            match AQIData.buildPollutantsGo t with
            | .error e => .error e
            | .ok rest => .ok ((k, f) :: rest)
      else AQIData.buildPollutantsGo t

/-- `.items()` over the `iaqi` value: `AttributeError` when it is not a
dictionary. -/
def AQIData.buildPollutants : PyVal → Except PyExc (List (String × Rat))
  | .dict kvs => AQIData.buildPollutantsGo kvs
  | _ => .error .attributeError

/-- `AQIData.__init__` from the timestamp line onwards (split from
`initCore` to keep terms small). -/
def AQIData.initRest (data : PyVal) (overall : Int) (locS : String) (lat lon : PyVal) :
    Except PyExc AQIData :=
  match pyGet data "time" (.dict []) with
  | .error e => .error e
  | .ok timeObj =>
    match pyGet timeObj "iso" .none with
    | .error e => .error e
    | .ok tsV =>
      match (if pyTruthy tsV then
               match tsV with
               | .str s =>
                 if fromisoOk s then .ok (PyTimestamp.iso s)
                 else .error (.valueError s!"Invalid isoformat string: '{s}'")
               | _ => .error .typeError
             else .ok PyTimestamp.nowUTC : Except PyExc PyTimestamp) with
      | .error e => .error e
      | .ok ts =>
        match pyGet data "iaqi" (.dict []) with
        | .error e => .error e
        | .ok iaqi =>
          match AQIData.buildPollutants iaqi with
          | .error e => .error e
          | .ok polls =>
            match pyGet data "dominentpol" (.str "N/A") with
            | .error e => .error e
            | .ok domV =>
              match (match domV with
                     | .str s => .ok s
                     | _ => .error .attributeError : Except PyExc String) with
              | .error e => .error e
              | .ok domS =>
                .ok { is_valid := true
                      overall_aqi := overall
                      location_name := locS
                      city := firstCommaSegment locS
                      country := "N/A"
                      latitude := lat
                      longitude := lon
                      distance_km := 0
                      timestamp := ts
                      pollutants := polls
                      dominant_pollutant := pyUpper domS
                      aqi_category_name := (classifyAQI overall).1
                      aqi_category_theme := (classifyAQI overall).2 }

/-- The body of `AQIData.__init__` before its catch clause, step by step in
source order.  Every fallible Python operation runs in `Except PyExc`. -/
def AQIData.initCore (waqi : PyVal) : Except PyExc AQIData :=
  match pyGet waqi "data" .none with
  | .error e => .error e
  | .ok data =>
    match pyGet waqi "status" .none with
    | .error e => .error e
    | .ok status =>
      if !pyTruthy data || !pyStrEq status "ok" then .ok { is_valid := false }
      else
        match pyGet data "aqi" (.int 0) with
        | .error e => .error e
        | .ok aqiV =>
          match pyInt aqiV with
          | .error e => .error e
          | .ok overall =>
            match pyGet data "city" (.dict []) with
            | .error e => .error e
            | .ok cityObj =>
              match pyGet cityObj "name" (.str "N/A") with
              | .error e => .error e
              | .ok locV =>
                match (match locV with
                       | .str s => .ok s
                       | _ => .error .attributeError : Except PyExc String) with
                | .error e => .error e
                | .ok locS =>
                  match pyGet cityObj "geo" (.list [.none, .none]) with
                  | .error e => .error e
                  | .ok geo =>
                    match pyIndexNat geo 0 with
                    | .error e => .error e
                    | .ok lat =>
                      match pyIndexNat geo 1 with
                      | .error e => .error e
                      | .ok lon =>
                        AQIData.initRest data overall locS lat lon

/-- `AQIData(waqi_json)`: the catch clause of the constructor.  It catches
`KeyError`, `IndexError` and `TypeError` — and only those — turning them
into a record with `is_valid = False`; any other exception (in particular
`ValueError`) escapes the constructor. -/
def AQIData.init (waqi : PyVal) : Except PyExc AQIData :=
  match AQIData.initCore waqi with
  | .ok r => .ok r
  | .error e =>
    match e with
    | .keyError => .ok { is_valid := false }
    | .indexError => .ok { is_valid := false }
    | .typeError => .ok { is_valid := false }
    | _ => .error e

/-- Rendering of an exception into an f-string (`str(e)` in the source).
Only `valueError` texts are user-meaningful; the rest are stable tags. -/
def excStr : PyExc → String
  | .keyError => "KeyError"
  | .indexError => "list index out of range"
  | .typeError => "TypeError"
  | .valueError m => m
  | .attributeError => "AttributeError"

/-- A `\x7b:.2f\x7d` format of a Python value, as in the worker's status
line: numbers render (text simplified to `toString`), strings raise
`ValueError`, other values `TypeError`. -/
def pyFmtF : PyVal → Except PyExc String
  | .int n => .ok (toString n)
  | .float q => .ok (toString q)
  | .bool b => .ok (if b then "1.00" else "0.00")
  | .str _ => .error (.valueError "Unknown format code 'f' for object of type 'str'")
  | _ => .error .typeError

/-- `os.path.splitext(p)[1].lower().strip('.')`: the lower-cased extension
after the last dot, empty when there is no dot (dotfiles are not
special-cased; no claim exercises them). -/
def pyExt (p : String) : String :=
  if p.data.contains '.' then
    pyLower (String.mk ((p.data.reverse.takeWhile (fun c => !(c == '.'))).reverse))
  else ""

/-- The MIME-type dictionary of `_worker_analyze_img`. -/
def mimeOf : String → Option String
  | "jpg" => some "image/jpeg"
  | "jpeg" => some "image/jpeg"
  | "png" => some "image/png"
  | "webp" => some "image/webp"
  | _ => Option.none

/-- One call to an external collaborator, recorded at the adapter
boundary. -/
inductive ExtCall where
  | ipLookup
  | geocode (q : String)
  | feed (lat lon : PyVal)
  | aiComplete (prompt : String)
  | saveRecord (path ctype : String)

/-- One UI mutation, either performed synchronously on the UI thread or
scheduled from a worker via `self.after(0, ...)`. -/
inductive UIAction where
  | setBusy (b : Bool)
  | status (text style : String) (progress : Bool)
  | errorState (title details : String)
  | updateDisplay
  | entryDelete
  | entryInsert (s : String)
  | aiQuestion (s : String)
  | aiResponse (s : String)
  | analysisText (s : String)
  | infoBox (title msg : String)

/-- What one background worker did: external calls issued, UI callbacks
scheduled (in order), and the exception, if any, that escaped the worker
function — fatal to the thread. -/
structure WorkerTrace where
  calls : List ExtCall
  scheduled : List UIAction
  leaked : Option PyExc

/-- One user-triggered operation: synchronous UI actions on the triggering
thread, an exception escaping on the UI thread if any, and the worker
spawned, if any. -/
structure OpTrace where
  sync : List UIAction
  syncLeak : Option PyExc
  worker : Option WorkerTrace

/-- Outcomes of the external collaborators, fixed per run: what each client
call would deliver if issued. -/
structure Env where
  ipResult : Option PyVal
  geocodeModelAvail : Bool
  geocodeJson : Except PyExc PyVal
  feedRaw : PyVal
  aiModelAvail : Bool
  aiResult : Except PyExc String
  mongoAvail : Bool
  fileRead : Except PyExc Unit
  saveErr : Option PyExc

/-- The two shared state fields read by triggers and workers. -/
structure AppCtx where
  aqi_data : Option AQIData
  img_path : Option String

/-- `GeminiService.get_ai_response`: never raises; offline stub without a
key, `"AI Error: ..."` text when the SDK call throws. -/
def get_ai_response (modelAvail : Bool) (result : Except PyExc String) : String :=
  if !modelAvail then "AI Service is offline (check API key)."
  else
    match result with
    | .ok t => t
    | .error e => s!"AI Error: {excStr e}"

/-- `GeminiService.get_coordinates_from_text`: `rjson` is the outcome of
the SDK call plus `json.loads`; the surrounding `except Exception` turns
every failure into `None`, and null/absent latitude or longitude also
yields `None`. -/
def get_coordinates_from_text (modelAvail : Bool) (rjson : Except PyExc PyVal)
    (query : String) : Option (Rat × Rat × String) :=
  if !modelAvail then Option.none
  else
    match rjson with
    | .error _ => Option.none
    | .ok j =>
      match (match pyGet j "latitude" .none with
             | .error e => .error e
             | .ok lat =>
               match pyGet j "longitude" .none with
               | .error e => .error e
               | .ok lon =>
                 match pyGet j "identified_name" (.str query) with
                 | .error e => .error e
                 | .ok name =>
                   if (match lat with | .none => false | _ => true) &&
                      (match lon with | .none => false | _ => true) then
                     match pyFloat lat with
                     | .error e => .error e
                     | .ok latF =>
                       match pyFloat lon with
                       | .error e => .error e
                       | .ok lonF => .ok (some (latF, lonF, pyStrOf name))
                   else .ok Option.none : Except PyExc (Option (Rat × Rat × String))) with
      | .ok r => r
      | .error _ => Option.none

/-- `MongoDBService.save_record`: no-op without a database handle, and its
`except Exception` swallows every internal failure, so it never raises. -/
def save_record (dbAvail : Bool) (err : Option PyExc) : Except PyExc Unit :=
  if !dbAvail then .ok ()
  else
    match err with
    | some _ => .ok ()
    | Option.none => .ok ()

/-- The unsigned part of one number of the coordinate pattern:
`\d+\.?\d*` with ASCII digits, consumed greedily; returns the remainder
(greedy matching is equivalent to the backtracking semantics for this
pattern, since no relevant token can follow the alternatives that would
require backtracking). -/
def eatNumBody : List Char → Option (List Char)
  | [] => Option.none
  | c :: t =>
    if isAsciiDigit c then
      match t.dropWhile isAsciiDigit with
      | [] => some []
      | c2 :: t2 =>
        if c2 == '.' then some (t2.dropWhile isAsciiDigit) else some (c2 :: t2)
    else Option.none

/-- The optional leading minus in front of `eatNumBody`. -/
def eatNum (cs : List Char) : Option (List Char) :=
  match cs with
  | c :: t => if c == '-' then eatNumBody t else eatNumBody (c :: t)
  | [] => eatNumBody []

/-- `re.match(r'^-?\d+\.?\d*,\s*-?\d+\.?\d*$', query)` as a recogniser;
`$` also matches just before one trailing newline, as in Python. -/
def matchCoord (s : String) : Bool :=
  match eatNum s.data with
  | some (',' :: rest) =>
    match eatNum (rest.dropWhile isPySpace) with
    | some [] => true
    | some ['\n'] => true
    | _ => false
  | _ => false

/-- `_worker_fetch_aqi_data`: formats the status line (which can itself
raise for non-numeric coordinates), issues the feed call, then parses.
The record assignment `self.aqi_data = AQIData(raw)` happens on the worker
thread; its effect on shared state is not separately modelled because no
claim reads it outside the scheduled callbacks. -/
def worker_fetch_aqi_data (latV lonV : PyVal) (raw : PyVal) : WorkerTrace :=
  match pyFmtF latV, pyFmtF lonV with
  | .error e, _ => ⟨[], [], some e⟩
  | .ok _, .error e => ⟨[], [], some e⟩
  | .ok ls, .ok lns =>
    let s0 : List UIAction :=
      [.status (s!"Fetching AQI near ({ls},{lns})...") "info" true]
    let calls : List ExtCall := [.feed latV lonV]
    if pyTruthy raw then
      match pyGet raw "status" .none with
      | .error e => ⟨calls, s0, some e⟩
      | .ok st =>
        if pyStrEq st "ok" then
          match AQIData.init raw with
          | .error e => ⟨calls, s0, some e⟩
          | .ok r =>
            if r.is_valid then
              ⟨calls, s0 ++ [.updateDisplay, .status "Success!" "success" false,
                             .setBusy false], Option.none⟩
            else
              ⟨calls, s0 ++ [.errorState "Parse Error" "Could not process API data.",
                             .status "Data parse failed." "warning" false,
                             .setBusy false], Option.none⟩
        else
          match pyGet raw "data" (.str "Unknown API error.") with
          | .error e => ⟨calls, s0, some e⟩
          | .ok reason =>
            ⟨calls, s0 ++ [.errorState "No Data Found"
                             (s!"Could not get data.\nReason: {pyStrOf reason}"),
                           .status "AQI data fetch failed." "warning" false,
                           .setBusy false], Option.none⟩
    else
      match pyGet raw "data" (.str "Unknown API error.") with
      | .error e => ⟨calls, s0, some e⟩
      | .ok reason =>
        ⟨calls, s0 ++ [.errorState "No Data Found"
                         (s!"Could not get data.\nReason: {pyStrOf reason}"),
                       .status "AQI data fetch failed." "warning" false,
                       .setBusy false], Option.none⟩

/-- `_worker_geocode_with_gemini`: one geocode call; on success update the
entry and continue into the feed fetch on the same worker, on failure
report not-found and clear the busy flag. -/
def worker_geocode (query : String) (env : Env) : WorkerTrace :=
  match get_coordinates_from_text env.geocodeModelAvail env.geocodeJson query with
  | some (lat, lon, name) =>
    let ft := worker_fetch_aqi_data (.float lat) (.float lon) env.feedRaw
    ⟨.geocode query :: ft.calls,
     [.entryDelete, .entryInsert name] ++ ft.scheduled, ft.leaked⟩
  | Option.none =>
    ⟨[.geocode query],
     [.status (s!"Could not find '{query}'.") "danger" false,
      .errorState "Location Not Found" (s!"'{query}' could not be identified."),
      .setBusy false], Option.none⟩

/-- `_worker_fetch_by_ip`: one IP-geolocation call; on a truthy payload,
rewrite the location entry and continue into the feed fetch on the same
worker (note the unguarded `loc['latitude']` subscripts); otherwise report
a warning and clear the busy flag. -/
def worker_fetch_by_ip (env : Env) : WorkerTrace :=
  match env.ipResult with
  | some loc =>
    if pyTruthy loc then
      match pyGet loc "city" .none with
      | .error e => ⟨[.ipLookup], [.entryDelete], some e⟩
      | .ok cityV =>
        match pyGet loc "country_code" .none with
        | .error e => ⟨[.ipLookup], [.entryDelete], some e⟩
        | .ok ccV =>
          match pyIndexKey loc "latitude" with
          | .error e =>
            ⟨[.ipLookup],
             [.entryDelete, .entryInsert (s!"{pyStrOf cityV}, {pyStrOf ccV}")], some e⟩
          | .ok latV =>
            match pyIndexKey loc "longitude" with
            | .error e =>
              ⟨[.ipLookup],
               [.entryDelete, .entryInsert (s!"{pyStrOf cityV}, {pyStrOf ccV}")], some e⟩
            | .ok lonV =>
              let ft := worker_fetch_aqi_data latV lonV env.feedRaw
              ⟨.ipLookup :: ft.calls,
               [.entryDelete, .entryInsert (s!"{pyStrOf cityV}, {pyStrOf ccV}")]
                 ++ ft.scheduled, ft.leaked⟩
    else
      ⟨[.ipLookup],
       [.status "Could not get location via IP." "warning" false, .setBusy false],
       Option.none⟩
  | Option.none =>
    ⟨[.ipLookup],
     [.status "Could not get location via IP." "warning" false, .setBusy false],
     Option.none⟩

/-- The context string of `_worker_ask_ai`, from the current record when it
is present and valid, generic otherwise. -/
def askContext (rec : Option AQIData) : String :=
  match rec with
  | some d =>
    if d.is_valid then
      let pm25 : String :=
        match d.pollutants.find? (fun p => p.1 == "pm25") with
        | some p => toString p.2
        | Option.none => "N/A"
      s!"You are a helpful environmental and health advisor. Current air quality data for {d.city} is: AQI {d.overall_aqi} ({d.aqi_category_name}) with {d.dominant_pollutant} as the dominant pollutant. The PM2.5 level is approximately {pm25} µg/m³."
    else
      "You are a helpful environmental and health advisor. You do not have specific real-time air quality data, so provide general advice."
  | Option.none =>
    "You are a helpful environmental and health advisor. You do not have specific real-time air quality data, so provide general advice."

/-- `_worker_ask_ai`: builds the prompt, one AI call, then a single
UI-thread callback `_update_ai_response` whose effects are rendering the
response and clearing the busy flag. -/
def worker_ask_ai (ctx : AppCtx) (question : String) (env : Env) : WorkerTrace :=
  let fullPrompt :=
    askContext ctx.aqi_data ++
      "\n\nBased on this, answer the user's question clearly and concisely:\n\nUser Question: \"" ++ question ++ "\""
  let response := get_ai_response env.aiModelAvail env.aiResult
  ⟨[.aiComplete fullPrompt], [.aiResponse response, .setBusy false], Option.none⟩

/-- `ask_ai_assistant`: disables the UI and renders the question
synchronously on the UI thread, then spawns the worker. -/
def ask_ai_assistant (ctx : AppCtx) (question btnText : String) (env : Env) : OpTrace :=
  ⟨[.setBusy true, .aiQuestion btnText], Option.none,
   some (worker_ask_ai ctx question env)⟩

/-- Error path of `_worker_analyze_img`: the `except Exception` clause
schedules the failure status and error text, then `finally` schedules the
busy-flag clear. -/
def analyzeFailTrace (cs : List ExtCall) (pre : List UIAction) (e : PyExc) : WorkerTrace :=
  ⟨cs, pre ++ [.status (s!"Image analysis failed: {excStr e}") "danger" false,
               .analysisText (s!"Error: {excStr e}"),
               .setBusy false], Option.none⟩

/-- The analysis prompt of `_worker_analyze_img` (task text abbreviated;
no claim reads it). -/
def analysisPrompt (d : AQIData) : String :=
  s!"You are an environmental analyst. Context: Image taken near {d.city}, where AQI is {d.overall_aqi} ({d.aqi_category_name}) with dominant pollutant {d.dominant_pollutant}. Provide a concise, 3-part markdown analysis of the image."

/-- `_worker_analyze_img`: read the image bytes, derive the MIME type from
the extension (raising `ValueError` for an unsupported one), one AI call,
schedule the analysis text and success status, then best-effort storage;
`except Exception` converts any raised exception into error callbacks and
`finally` always schedules the busy-flag clear. -/
def worker_analyze_img (imgPath : String) (d : AQIData) (env : Env) : WorkerTrace :=
  match env.fileRead with
  | .error e => analyzeFailTrace [] [] e
  | .ok () =>
    match mimeOf (pyExt imgPath) with
    | Option.none => analyzeFailTrace [] [] (.valueError "Unsupported image format")
    | some ctype =>
      let prompt := analysisPrompt d
      let analysis := get_ai_response env.aiModelAvail env.aiResult
      let pre : List UIAction :=
        [.analysisText analysis, .status "Analysis complete." "success" false]
      if env.mongoAvail && d.is_valid then
        match save_record env.mongoAvail env.saveErr with
        | .error e =>
          analyzeFailTrace [.aiComplete prompt, .saveRecord imgPath ctype] pre e
        | .ok () =>
          ⟨[.aiComplete prompt, .saveRecord imgPath ctype],
           pre ++ [.setBusy false], Option.none⟩
      else
        ⟨[.aiComplete prompt], pre ++ [.setBusy false], Option.none⟩

/-- `analyze_img`: the synchronous precondition check (image loaded, record
present and valid) shows a message box and spawns nothing when violated;
otherwise it disables the UI and spawns the worker. -/
def analyze_img (ctx : AppCtx) (env : Env) : OpTrace :=
  match ctx.img_path, ctx.aqi_data with
  | some p, some d =>
    if !(p == "") && d.is_valid then
      ⟨[.setBusy true, .status "Analyzing sky image..." "info" true], Option.none,
       some (worker_analyze_img p d env)⟩
    else
      ⟨[.infoBox "Analysis Blocked" "Upload image and fetch valid AQI data first."],
       Option.none, Option.none⟩
  | _, _ =>
    ⟨[.infoBox "Analysis Blocked" "Upload image and fetch valid AQI data first."],
     Option.none, Option.none⟩

/-- `fetch_by_input`: strip the entry text; an empty result is a complete
no-op.  A match of the coordinate pattern parses the two floats on the
triggering thread and spawns the feed worker directly; anything else is
sent to the AI geocoding worker. -/
def fetch_by_input (entry : String) (env : Env) : OpTrace :=
  let query := pyStrip entry
  if query == "" then ⟨[], Option.none, Option.none⟩
  else if matchCoord query then
    match pySplitList query.data with
    | [a, b] =>
      match parseFloatChars a, parseFloatChars b with
      | some lat, some lon =>
        ⟨[.setBusy true], Option.none,
         some (worker_fetch_aqi_data (.float lat) (.float lon) env.feedRaw)⟩
      | _, _ =>
        ⟨[.setBusy true], some (.valueError "could not convert string to float"),
         Option.none⟩
    | _ =>
      ⟨[.setBusy true], some (.valueError "not enough values to unpack"), Option.none⟩
  else
    ⟨[.setBusy true, .status (s!"Finding '{query}'...") "info" true], Option.none,
     some (worker_geocode query env)⟩

/-- `fetch_aqi_by_ip_address`: busy, status, then the IP worker. -/
def fetch_aqi_by_ip_address (env : Env) : OpTrace :=
  ⟨[.setBusy true, .status "Detecting location..." "info" true], Option.none,
   some (worker_fetch_by_ip env)⟩

/-- The five user-triggered operation kinds of the orchestration layer.
A direct feed fetch is triggered through the coordinate branch of
`fetch_by_input`, whose trigger-side effect is exactly `busy := true`. -/
inductive OpInvocation where
  | byIP (env : Env)
  | byText (entry : String) (env : Env)
  | fetchAQI (lat lon : Rat) (env : Env)
  | askAI (ctx : AppCtx) (question btnText : String) (env : Env)
  | analyze (ctx : AppCtx) (env : Env)

/-- Run one operation to its trace. -/
def runOp : OpInvocation → OpTrace
  | .byIP env => fetch_aqi_by_ip_address env
  | .byText entry env => fetch_by_input entry env
  | .fetchAQI lat lon env =>
    ⟨[.setBusy true], Option.none,
     some (worker_fetch_aqi_data (.float lat) (.float lon) env.feedRaw)⟩
  | .askAI ctx q b env => ask_ai_assistant ctx q b env
  | .analyze ctx env => analyze_img ctx env

/-- Number of busy-flag clears in a callback list. -/
def busySetFalseCount : List UIAction → Nat
  | [] => 0
  | UIAction.setBusy false :: t => busySetFalseCount t + 1
  | _ :: t => busySetFalseCount t

/-- Last element of a callback list. -/
def lastAction : List UIAction → Option UIAction
  | [] => Option.none
  | [a] => some a
  | _ :: b :: t => lastAction (b :: t)

/-- The worker half of the busy discipline: nothing escaped the worker, and
its callback chain clears the busy flag exactly once, as its final
callback. -/
def busyWorkerOK (w : WorkerTrace) : Prop :=
  w.leaked = Option.none ∧
  busySetFalseCount w.scheduled = 1 ∧
  lastAction w.scheduled = some (UIAction.setBusy false)

/-- The whole busy discipline of one operation: busy set true synchronously
on the triggering thread (and never cleared there), a worker spawned, and
the worker's chain clears busy exactly once, at its end. -/
def busyDiscipline (t : OpTrace) : Prop :=
  t.syncLeak = Option.none ∧
  UIAction.setBusy true ∈ t.sync ∧
  busySetFalseCount t.sync = 0 ∧
  ∃ w, t.worker = some w ∧ busyWorkerOK w

/-- A feed response that the claimed outcome branches cover: a dictionary
(the client always returns one) whose parse completes, i.e. raises nothing
the constructor's catch clause misses. -/
def feedTame (raw : PyVal) : Prop :=
  (∃ kvs, raw = PyVal.dict kvs) ∧ ∃ r, AQIData.init raw = .ok r

/-- An IP-geolocation outcome that the claimed outcome branches cover:
either a client failure, or a falsy payload, or a dictionary payload with
subscriptable numeric coordinates. -/
def ipTame : Option PyVal → Prop
  | Option.none => True
  | some loc =>
    pyTruthy loc = false ∨
      ((∃ kvs, loc = PyVal.dict kvs) ∧
       (∃ v, pyIndexKey loc "latitude" = .ok v ∧ ∃ s, pyFmtF v = .ok s) ∧
       (∃ v, pyIndexKey loc "longitude" = .ok v ∧ ∃ s, pyFmtF v = .ok s))

/-- The synchronous precondition of `analyze_img`. -/
def analyzeReady (ctx : AppCtx) : Bool :=
  match ctx.img_path, ctx.aqi_data with
  | some p, some d => !(p == "") && d.is_valid
  | _, _ => false

/-- Restriction of an invocation to the outcome branches the busy-state
claim enumerates (success, parse error, client error, caught exception):
empty queries, violated preconditions, and payloads whose parsing raises
an exception the code fails to catch are outside them. -/
def validInv : OpInvocation → Prop
  | .byIP env => ipTame env.ipResult ∧ feedTame env.feedRaw
  | .byText entry env => ¬ pyStrip entry = "" ∧ feedTame env.feedRaw
  | .fetchAQI _ _ env => feedTame env.feedRaw
  | .askAI _ _ _ _ => True
  | .analyze ctx _ => analyzeReady ctx = true

/-- The category table exactly as the specification words it: a fixed,
ordered set of inclusive integer ranges over the index, `"No Data"` and
`secondary` outside all ranges. -/
def specCategory (idx : Int) : String × String :=
  if 0 ≤ idx ∧ idx ≤ 50 then ("Good", "success")
  else if 51 ≤ idx ∧ idx ≤ 100 then ("Moderate", "warning")
  else if 101 ≤ idx ∧ idx ≤ 150 then ("Unhealthy for Sensitive", "warning")
  else if 151 ≤ idx ∧ idx ≤ 200 then ("Unhealthy", "danger")
  else if 201 ≤ idx ∧ idx ≤ 300 then ("Very Unhealthy", "danger")
  else if 301 ≤ idx ∧ idx ≤ 5000 then ("Hazardous", "danger")
  else ("No Data", "secondary")

/-! ## Helper lemmas -/

theorem takeWhile_append_all {p : Char → Bool} :
    ∀ {a : List Char}, (∀ c ∈ a, p c = true) → ∀ l : List Char,
      (a ++ l).takeWhile p = a ++ l.takeWhile p := by
  intro a
  induction a with
  | nil => intro _ l; simp
  | cons c t ih =>
    intro h l
    have hc : p c = true := h c (List.mem_cons_self c t)
    simp only [List.cons_append, List.takeWhile_cons_of_pos hc]
    rw [ih (fun x hx => h x (List.mem_cons_of_mem c hx)) l]

theorem dropWhile_append_all {p : Char → Bool} :
    ∀ {a : List Char}, (∀ c ∈ a, p c = true) → ∀ l : List Char,
      (a ++ l).dropWhile p = l.dropWhile p := by
  intro a
  induction a with
  | nil => intro _ l; simp
  | cons c t ih =>
    intro h l
    have hc : p c = true := h c (List.mem_cons_self c t)
    simp only [List.cons_append, List.dropWhile_cons_of_pos hc]
    exact ih (fun x hx => h x (List.mem_cons_of_mem c hx)) l

theorem pySpace_not_digit {c : Char} (h : isPySpace c = true) : isAsciiDigit c = false := by
  simp only [isPySpace, Bool.or_eq_true, beq_iff_eq] at h
  rcases h with ((((h | h) | h) | h) | h) | h <;> subst h <;> decide

theorem pySpace_ne {c : Char} (h : isPySpace c = true) :
    c ≠ '-' ∧ c ≠ '+' ∧ c ≠ '.' ∧ c ≠ ',' ∧ c ≠ 'e' ∧ c ≠ 'E' := by
  simp only [isPySpace, Bool.or_eq_true, beq_iff_eq] at h
  rcases h with ((((h | h) | h) | h) | h) | h <;> subst h <;>
    exact ⟨by decide, by decide, by decide, by decide, by decide, by decide⟩

theorem digit_ne {c : Char} (h : isAsciiDigit c = true) :
    c ≠ '-' ∧ c ≠ '+' ∧ c ≠ '.' ∧ c ≠ ',' ∧ c ≠ 'e' ∧ c ≠ 'E' ∧ isPySpace c = false := by
  refine ⟨?_, ?_, ?_, ?_, ?_, ?_, ?_⟩
  · intro he; subst he; exact absurd h (by decide)
  · intro he; subst he; exact absurd h (by decide)
  · intro he; subst he; exact absurd h (by decide)
  · intro he; subst he; exact absurd h (by decide)
  · intro he; subst he; exact absurd h (by decide)
  · intro he; subst he; exact absurd h (by decide)
  · cases hs : isPySpace c with
    | false => rfl
    | true => rw [pySpace_not_digit hs] at h; exact absurd h (by decide)

theorem eatNumBody_sound {cs rest : List Char} (h : eatNumBody cs = some rest) :
    ∃ ds dot fd, cs = ds ++ dot ++ fd ++ rest ∧ ds ≠ [] ∧
      (∀ c ∈ ds, isAsciiDigit c = true) ∧
      ((dot = [] ∧ fd = []) ∨ (dot = ['.'] ∧ ∀ c ∈ fd, isAsciiDigit c = true)) := by
  unfold eatNumBody at h
  split at h
  · exact absurd h (by simp)
  next c t =>
    split at h
    case isFalse => exact absurd h (by simp)
    case isTrue hd =>
      have ht : t = t.takeWhile isAsciiDigit ++ t.dropWhile isAsciiDigit :=
        (List.takeWhile_append_dropWhile isAsciiDigit t).symm
      have hds : ∀ x ∈ c :: t.takeWhile isAsciiDigit, isAsciiDigit x = true := by
        intro x hx
        rcases List.mem_cons.mp hx with hx | hx
        · subst hx; exact hd
        · exact List.mem_takeWhile_imp hx
      split at h
      next hr =>
        have hrest : rest = [] := by simpa using h.symm
        subst hrest
        refine ⟨c :: t.takeWhile isAsciiDigit, [], [], ?_, by simp, hds, Or.inl ⟨rfl, rfl⟩⟩
        conv_lhs => rw [ht, hr]
        simp
      next c2 t2 hr =>
        split at h
        case isTrue h2 =>
          have h2' : c2 = '.' := by simpa using h2
          subst h2'
          have hrest : rest = t2.dropWhile isAsciiDigit := by simpa using h.symm
          subst hrest
          refine ⟨c :: t.takeWhile isAsciiDigit, ['.'], t2.takeWhile isAsciiDigit, ?_, by simp,
            hds, Or.inr ⟨rfl, fun x hx => List.mem_takeWhile_imp hx⟩⟩
          have ht2 : t2 = t2.takeWhile isAsciiDigit ++ t2.dropWhile isAsciiDigit :=
            (List.takeWhile_append_dropWhile isAsciiDigit t2).symm
          conv_lhs => rw [ht, hr, ht2]
          simp
        case isFalse h2 =>
          have hrest : rest = c2 :: t2 := by simpa using h.symm
          subst hrest
          refine ⟨c :: t.takeWhile isAsciiDigit, [], [], ?_, by simp, hds, Or.inl ⟨rfl, rfl⟩⟩
          conv_lhs => rw [ht, hr]
          simp

theorem eatNum_sound {cs rest : List Char} (h : eatNum cs = some rest) :
    ∃ sgn ds dot fd, cs = sgn ++ ds ++ dot ++ fd ++ rest ∧
      (sgn = [] ∨ sgn = ['-']) ∧ ds ≠ [] ∧
      (∀ c ∈ ds, isAsciiDigit c = true) ∧
      ((dot = [] ∧ fd = []) ∨ (dot = ['.'] ∧ ∀ c ∈ fd, isAsciiDigit c = true)) := by
  unfold eatNum at h
  split at h
  next c t =>
    split at h
    case isTrue hc =>
      have hcx : c = '-' := by simpa using hc
      subst hcx
      obtain ⟨ds, dot, fd, he, hne, hds, hdot⟩ := eatNumBody_sound h
      exact ⟨['-'], ds, dot, fd, by rw [he]; simp, Or.inr rfl, hne, hds, hdot⟩
    case isFalse hc =>
      obtain ⟨ds, dot, fd, he, hne, hds, hdot⟩ := eatNumBody_sound h
      exact ⟨[], ds, dot, fd, by rw [List.nil_append]; exact he, Or.inl rfl, hne, hds, hdot⟩
  · simp [eatNumBody] at h

theorem finishNum_of_space {neg : Bool} {ip fp b : List Char}
    (hb : ∀ c ∈ b, isPySpace c = true) :
    ∃ v, finishNum neg ip fp b = some v := by
  cases b with
  | nil => exact ⟨numVal neg ip fp false [], rfl⟩
  | cons c t =>
    have hc := pySpace_ne (hb c (List.mem_cons_self c t))
    have hstep : finishNum neg ip fp (c :: t) =
        (if (c == 'e' || c == 'E') = true then withExp neg ip fp t
         else if (c :: t).all isPySpace = true then some (numVal neg ip fp false [])
         else Option.none) := rfl
    rw [hstep, if_neg (by simp [hc.2.2.2.2.1, hc.2.2.2.2.2]),
      if_pos (by simpa using hb)]
    exact ⟨numVal neg ip fp false [], rfl⟩

theorem parseUnsigned_of_shape {neg : Bool} {ds dot fd b : List Char}
    (hd : ds ≠ []) (hda : ∀ c ∈ ds, isAsciiDigit c = true)
    (hdot : (dot = [] ∧ fd = []) ∨ (dot = ['.'] ∧ ∀ c ∈ fd, isAsciiDigit c = true))
    (hb : ∀ c ∈ b, isPySpace c = true) :
    ∃ v, parseUnsigned (ds ++ dot ++ fd ++ b) neg = some v := by
  have hbTake : b.takeWhile isAsciiDigit = [] := by
    cases b with
    | nil => rfl
    | cons c t =>
      exact List.takeWhile_cons_of_neg
        (by simp [pySpace_not_digit (hb c (List.mem_cons_self c t))])
  have hbDrop : b.dropWhile isAsciiDigit = b := by
    cases b with
    | nil => rfl
    | cons c t =>
      exact List.dropWhile_cons_of_neg
        (by simp [pySpace_not_digit (hb c (List.mem_cons_self c t))])
  have hdsEmpty : ds.isEmpty = false := by
    cases ds with
    | nil => exact absurd rfl hd
    | cons c t => rfl
  rcases hdot with ⟨hdot1, hfd⟩ | ⟨hdot1, hfd⟩
  · subst hdot1; subst hfd
    simp only [List.append_nil, List.nil_append]
    have htake : (ds ++ b).takeWhile isAsciiDigit = ds := by
      rw [takeWhile_append_all hda b, hbTake, List.append_nil]
    have hdrop : (ds ++ b).dropWhile isAsciiDigit = b := by
      rw [dropWhile_append_all hda b, hbDrop]
    cases b with
    | nil =>
      have hstep : parseUnsigned (ds ++ []) neg =
          (if ds.isEmpty = true then Option.none else finishNum neg ds [] []) := by
        unfold parseUnsigned
        rw [htake, hdrop]
      rw [hstep, if_neg (by simp [hdsEmpty])]
      exact finishNum_of_space (by intro c hc; cases hc)
    | cons c t =>
      have hc := pySpace_ne (hb c (List.mem_cons_self c t))
      have hstep : parseUnsigned (ds ++ c :: t) neg =
          (if (c == '.') = true then
             (if (ds.isEmpty && (t.takeWhile isAsciiDigit).isEmpty) = true then Option.none
              else finishNum neg ds (t.takeWhile isAsciiDigit) (t.dropWhile isAsciiDigit))
           else if ds.isEmpty = true then Option.none
           else finishNum neg ds [] (c :: t)) := by
        unfold parseUnsigned
        rw [htake, hdrop]
      rw [hstep, if_neg (by simp [hc.2.2.1]), if_neg (by simp [hdsEmpty])]
      exact finishNum_of_space hb
  · subst hdot1
    have htake : (ds ++ ['.'] ++ fd ++ b).takeWhile isAsciiDigit = ds := by
      rw [List.append_assoc, List.append_assoc, takeWhile_append_all hda]
      rw [List.singleton_append, List.takeWhile_cons_of_neg (by decide)]
      simp
    have hdrop : (ds ++ ['.'] ++ fd ++ b).dropWhile isAsciiDigit = '.' :: (fd ++ b) := by
      rw [List.append_assoc, List.append_assoc, dropWhile_append_all hda]
      rw [List.singleton_append, List.dropWhile_cons_of_neg (by decide)]
    have hfdTake : (fd ++ b).takeWhile isAsciiDigit = fd := by
      rw [takeWhile_append_all hfd b, hbTake, List.append_nil]
    have hfdDrop : (fd ++ b).dropWhile isAsciiDigit = b := by
      rw [dropWhile_append_all hfd b, hbDrop]
    have hstep : parseUnsigned (ds ++ ['.'] ++ fd ++ b) neg =
        (if (ds.isEmpty && ((fd ++ b).takeWhile isAsciiDigit).isEmpty) = true then Option.none
         else finishNum neg ds ((fd ++ b).takeWhile isAsciiDigit)
                ((fd ++ b).dropWhile isAsciiDigit)) := by
      unfold parseUnsigned
      rw [htake, hdrop]
      dsimp only
      rw [if_pos (by decide)]
    rw [hstep, if_neg (by simp [hdsEmpty]), hfdTake, hfdDrop]
    exact finishNum_of_space hb

theorem parse_of_shape {sgn ds dot fd a b : List Char}
    (hs : sgn = [] ∨ sgn = ['-'])
    (hd : ds ≠ []) (hda : ∀ c ∈ ds, isAsciiDigit c = true)
    (hdot : (dot = [] ∧ fd = []) ∨ (dot = ['.'] ∧ ∀ c ∈ fd, isAsciiDigit c = true))
    (ha : ∀ c ∈ a, isPySpace c = true) (hb : ∀ c ∈ b, isPySpace c = true) :
    ∃ v, parseFloatChars (a ++ sgn ++ ds ++ dot ++ fd ++ b) = some v := by
  obtain ⟨d, ds', hds⟩ : ∃ d ds', ds = d :: ds' := by
    cases ds with
    | nil => exact absurd rfl hd
    | cons d ds' => exact ⟨d, ds', rfl⟩
  have hdDigit : isAsciiDigit d = true := by
    subst hds; exact hda d (List.mem_cons_self d ds')
  have hne := digit_ne hdDigit
  rcases hs with hsgn | hsgn
  · subst hsgn
    have hdrop : (a ++ [] ++ ds ++ dot ++ fd ++ b).dropWhile isPySpace =
        d :: (ds' ++ dot ++ fd ++ b) := by
      subst hds
      simp only [List.append_nil, List.append_assoc, List.cons_append]
      rw [dropWhile_append_all ha]
      exact List.dropWhile_cons_of_neg (by simp [hne.2.2.2.2.2.2])
    have hstep : parseFloatChars (a ++ [] ++ ds ++ dot ++ fd ++ b) =
        (if (d == '-') = true then parseUnsigned (ds' ++ dot ++ fd ++ b) true
         else if (d == '+') = true then parseUnsigned (ds' ++ dot ++ fd ++ b) false
         else parseUnsigned (d :: (ds' ++ dot ++ fd ++ b)) false) := by
      unfold parseFloatChars
      rw [hdrop]
    rw [hstep, if_neg (by simp [hne.1]), if_neg (by simp [hne.2.1])]
    have hre : d :: (ds' ++ dot ++ fd ++ b) = ds ++ dot ++ fd ++ b := by
      subst hds; simp
    rw [hre]
    exact parseUnsigned_of_shape hd hda hdot hb
  · subst hsgn
    have hdrop : (a ++ ['-'] ++ ds ++ dot ++ fd ++ b).dropWhile isPySpace =
        '-' :: (ds ++ (dot ++ (fd ++ b))) := by
      simp only [List.append_assoc, List.singleton_append]
      rw [dropWhile_append_all ha]
      exact List.dropWhile_cons_of_neg (by decide)
    have hstep : parseFloatChars (a ++ ['-'] ++ ds ++ dot ++ fd ++ b) =
        parseUnsigned (ds ++ (dot ++ (fd ++ b))) true := by
      unfold parseFloatChars
      rw [hdrop]
      dsimp only
      rw [if_pos (by decide)]
    rw [hstep]
    have hre : ds ++ (dot ++ (fd ++ b)) = ds ++ dot ++ fd ++ b := by simp
    rw [hre]
    exact parseUnsigned_of_shape hd hda hdot hb

theorem pySplitList_cons (c : Char) (t : List Char) :
    pySplitList (c :: t) =
      (if c == ',' then [] :: pySplitList t
       else match pySplitList t with
            | h :: r => (c :: h) :: r
            | [] => [[c]]) := rfl

theorem pySplitList_of_no_comma {b : List Char} (h : ∀ c ∈ b, ¬ c = ',') :
    pySplitList b = [b] := by
  induction b with
  | nil => rfl
  | cons c t ih =>
    have hc : ¬ c = ',' := h c (List.mem_cons_self c t)
    have iht := ih (fun x hx => h x (List.mem_cons_of_mem c hx))
    rw [pySplitList_cons, if_neg (by simpa using hc), iht]

theorem pySplitList_append_comma {a b : List Char} (h : ∀ c ∈ a, ¬ c = ',') :
    pySplitList (a ++ ',' :: b) = a :: pySplitList b := by
  induction a with
  | nil =>
    simp only [List.nil_append]
    rw [pySplitList_cons, if_pos (by decide)]
  | cons c t ih =>
    have hc : ¬ c = ',' := h c (List.mem_cons_self c t)
    have iht := ih (fun x hx => h x (List.mem_cons_of_mem c hx))
    simp only [List.cons_append]
    rw [pySplitList_cons, if_neg (by simpa using hc), iht]

theorem no_comma_append {a b : List Char} (ha : ∀ c ∈ a, ¬ c = ',')
    (hb : ∀ c ∈ b, ¬ c = ',') : ∀ c ∈ a ++ b, ¬ c = ',' := by
  intro c hc
  rcases List.mem_append.mp hc with hc | hc
  · exact ha c hc
  · exact hb c hc

theorem no_comma_of_digits {ds : List Char} (h : ∀ c ∈ ds, isAsciiDigit c = true) :
    ∀ c ∈ ds, ¬ c = ',' := fun c hc => (digit_ne (h c hc)).2.2.2.1

theorem no_comma_of_spaces {ws : List Char} (h : ∀ c ∈ ws, isPySpace c = true) :
    ∀ c ∈ ws, ¬ c = ',' := fun c hc => (pySpace_ne (h c hc)).2.2.2.1

/-- A successful `eatNum` prefix: its characters are never commas, and
`float()` accepts it with arbitrary surrounding whitespace. -/
theorem eatNum_pre_ok {cs rest : List Char} (h : eatNum cs = some rest) :
    ∃ pre, cs = pre ++ rest ∧ (∀ c ∈ pre, ¬ c = ',') ∧
      ∀ a b : List Char, (∀ c ∈ a, isPySpace c = true) → (∀ c ∈ b, isPySpace c = true) →
        ∃ v, parseFloatChars (a ++ pre ++ b) = some v := by
  obtain ⟨sgn, ds, dot, fd, he, hsgn, hne, hds, hdot⟩ := eatNum_sound h
  refine ⟨sgn ++ ds ++ dot ++ fd, by simpa [List.append_assoc] using he, ?_, ?_⟩
  · apply no_comma_append
    apply no_comma_append
    apply no_comma_append
    · rcases hsgn with hsgn | hsgn <;> subst hsgn
      · intro c hc; cases hc
      · intro c hc
        rcases List.mem_singleton.mp hc with rfl
        decide
    · exact no_comma_of_digits hds
    · rcases hdot with ⟨hdot1, _⟩ | ⟨hdot1, _⟩ <;> subst hdot1
      · intro c hc; cases hc
      · intro c hc
        rcases List.mem_singleton.mp hc with rfl
        decide
    · rcases hdot with ⟨_, hfd⟩ | ⟨_, hfd⟩
      · subst hfd; intro c hc; cases hc
      · exact no_comma_of_digits hfd
  · intro a b hA hB
    have := parse_of_shape hsgn hne hds hdot hA hB
    simpa [List.append_assoc] using this

theorem matchCoord_parses {q : String} (h : matchCoord q = true) :
    ∃ a b v1 v2, pySplitList q.data = [a, b] ∧
      parseFloatChars a = some v1 ∧ parseFloatChars b = some v2 := by
  unfold matchCoord at h
  split at h
  case h_2 => exact absurd h (by simp)
  case h_1 rest heq =>
    obtain ⟨pre1, he1, hnc1, hp1⟩ := eatNum_pre_ok heq
    have hws : ∀ c ∈ rest.takeWhile isPySpace, isPySpace c = true :=
      fun c hc => List.mem_takeWhile_imp hc
    have hrest : rest = rest.takeWhile isPySpace ++ rest.dropWhile isPySpace :=
      (List.takeWhile_append_dropWhile isPySpace rest).symm
    split at h
    case h_3 => exact absurd h (by simp)
    case h_1 heq2 =>
      obtain ⟨pre2, he2, hnc2, hp2⟩ := eatNum_pre_ok heq2
      rw [List.append_nil] at he2
      obtain ⟨v1, hv1⟩ := hp1 [] [] (by intro c hc; cases hc) (by intro c hc; cases hc)
      obtain ⟨v2, hv2⟩ := hp2 (rest.takeWhile isPySpace) [] hws (by intro c hc; cases hc)
      have hq : q.data = pre1 ++ ',' :: (rest.takeWhile isPySpace ++ pre2) := by
        conv_lhs => rw [he1, hrest, he2]
      refine ⟨pre1, rest.takeWhile isPySpace ++ pre2, v1, v2, ?_, by simpa using hv1,
        by simpa using hv2⟩
      rw [hq, pySplitList_append_comma hnc1,
        pySplitList_of_no_comma (no_comma_append (no_comma_of_spaces hws) hnc2)]
    case h_2 heq2 =>
      obtain ⟨pre2, he2, hnc2, hp2⟩ := eatNum_pre_ok heq2
      obtain ⟨v1, hv1⟩ := hp1 [] [] (by intro c hc; cases hc) (by intro c hc; cases hc)
      obtain ⟨v2, hv2⟩ := hp2 (rest.takeWhile isPySpace) ['\n'] hws
        (by intro c hc; rcases List.mem_singleton.mp hc with rfl; decide)
      have hq : q.data =
          pre1 ++ ',' :: (rest.takeWhile isPySpace ++ (pre2 ++ ['\n'])) := by
        conv_lhs => rw [he1, hrest, he2]
      have hbnc : ∀ c ∈ rest.takeWhile isPySpace ++ (pre2 ++ ['\n']), ¬ c = ',' := by
        apply no_comma_append (no_comma_of_spaces hws)
        apply no_comma_append hnc2
        intro c hc
        rcases List.mem_singleton.mp hc with rfl
        decide
      refine ⟨pre1, rest.takeWhile isPySpace ++ (pre2 ++ ['\n']), v1, v2, ?_,
        by simpa using hv1, by simpa [List.append_assoc] using hv2⟩
      rw [hq, pySplitList_append_comma hnc1, pySplitList_of_no_comma hbnc]

theorem worker_fetch_calls_shape (latV lonV raw : PyVal) :
    (worker_fetch_aqi_data latV lonV raw).calls = [] ∨
    (worker_fetch_aqi_data latV lonV raw).calls = [ExtCall.feed latV lonV] := by
  unfold worker_fetch_aqi_data
  repeat' split
  all_goals simp

theorem save_record_ok (avail : Bool) (err : Option PyExc) :
    save_record avail err = .ok () := by
  unfold save_record
  split
  · rfl
  · split <;> rfl

theorem busyCount_append (a b : List UIAction) :
    busySetFalseCount (a ++ b) = busySetFalseCount a + busySetFalseCount b := by
  induction a with
  | nil => simp [busySetFalseCount]
  | cons x t ih =>
    cases x with
    | setBusy bv =>
      cases bv with
      | false => simp [busySetFalseCount, ih]; omega
      | true => simp [busySetFalseCount, ih]
    | status a b c => simp [busySetFalseCount, ih]
    | errorState a b => simp [busySetFalseCount, ih]
    | updateDisplay => simp [busySetFalseCount, ih]
    | entryDelete => simp [busySetFalseCount, ih]
    | entryInsert a => simp [busySetFalseCount, ih]
    | aiQuestion a => simp [busySetFalseCount, ih]
    | aiResponse a => simp [busySetFalseCount, ih]
    | analysisText a => simp [busySetFalseCount, ih]
    | infoBox a b => simp [busySetFalseCount, ih]

theorem lastAction_ne_nil {l : List UIAction} {a : UIAction}
    (h : lastAction l = some a) : l ≠ [] := by
  intro he
  subst he
  exact absurd h (by simp [lastAction])

theorem lastAction_append (a : List UIAction) {b : List UIAction} (hb : b ≠ []) :
    lastAction (a ++ b) = lastAction b := by
  induction a with
  | nil => rfl
  | cons x t ih =>
    rw [List.cons_append]
    have hne : t ++ b ≠ [] := by
      intro he
      exact hb (List.append_eq_nil.mp he).2
    cases hc : t ++ b with
    | nil => exact absurd hc hne
    | cons y u =>
      rw [show lastAction (x :: y :: u) = lastAction (y :: u) from rfl, ← hc, ih]

theorem worker_fetch_busy (latV lonV raw : PyVal)
    (hlat : ∃ s, pyFmtF latV = .ok s) (hlon : ∃ s, pyFmtF lonV = .ok s)
    (ht : feedTame raw) : busyWorkerOK (worker_fetch_aqi_data latV lonV raw) := by
  obtain ⟨ls, hls⟩ := hlat
  obtain ⟨lns, hlns⟩ := hlon
  obtain ⟨⟨kvs, hkvs⟩, r, hr⟩ := ht
  subst hkvs
  unfold worker_fetch_aqi_data
  rw [hls, hlns, hr]
  dsimp only [pyGet]
  repeat' split
  all_goals refine ⟨rfl, ?_, ?_⟩ <;> simp [busySetFalseCount, lastAction]

theorem worker_geocode_busy {q : String} {env : Env} (ht : feedTame env.feedRaw) :
    busyWorkerOK (worker_geocode q env) := by
  unfold worker_geocode
  split
  next lat lon name _ =>
    have hft := worker_fetch_busy (.float lat) (.float lon) env.feedRaw ⟨toString lat, rfl⟩ ⟨toString lon, rfl⟩ ht
    refine ⟨hft.1, ?_, ?_⟩
    · rw [busyCount_append, hft.2.1]
      simp [busySetFalseCount]
    · rw [lastAction_append _ (lastAction_ne_nil hft.2.2)]
      exact hft.2.2
  next => exact ⟨rfl, by simp [busySetFalseCount], by simp [lastAction]⟩

theorem worker_ip_busy {env : Env} (hip : ipTame env.ipResult) (ht : feedTame env.feedRaw) :
    busyWorkerOK (worker_fetch_by_ip env) := by
  unfold worker_fetch_by_ip
  cases hi : env.ipResult with
  | none => exact ⟨rfl, by simp [busySetFalseCount], by simp [lastAction]⟩
  | some loc =>
    rw [hi] at hip
    dsimp only
    rcases hip with htr | ⟨⟨kvs, hkvs⟩, ⟨latV, hlat, hlatF⟩, ⟨lonV, hlon, hlonF⟩⟩
    · rw [if_neg (by simp [htr])]
      exact ⟨rfl, by simp [busySetFalseCount], by simp [lastAction]⟩
    · subst hkvs
      rw [hlat, hlon]
      dsimp only [pyGet]
      split
      · have hft := worker_fetch_busy latV lonV env.feedRaw hlatF hlonF ht
        refine ⟨hft.1, ?_, ?_⟩
        · rw [busyCount_append, hft.2.1]
          simp [busySetFalseCount]
        · rw [lastAction_append _ (lastAction_ne_nil hft.2.2)]
          exact hft.2.2
      · exact ⟨rfl, by simp [busySetFalseCount], by simp [lastAction]⟩

theorem worker_analyze_busy (p : String) (d : AQIData) (env : Env) :
    busyWorkerOK (worker_analyze_img p d env) := by
  unfold worker_analyze_img analyzeFailTrace
  repeat' split
  all_goals refine ⟨rfl, ?_, ?_⟩ <;> simp [busySetFalseCount, lastAction]

theorem worker_ask_busy (ctx : AppCtx) (question : String) (env : Env) :
    busyWorkerOK (worker_ask_ai ctx question env) :=
  ⟨rfl, by simp [busySetFalseCount], by simp [lastAction]⟩

theorem initCore_category {waqi : PyVal} {r : AQIData}
    (h : AQIData.initCore waqi = .ok r) (hv : r.is_valid = true) :
    (r.aqi_category_name, r.aqi_category_theme) = classifyAQI r.overall_aqi := by
  unfold AQIData.initCore AQIData.initRest at h
  repeat' split at h
  all_goals
    first
    | (rw [Except.ok.injEq] at h; subst h;
       first
       | rfl
       | exact absurd hv (by simp))
    | simp at h

theorem init_category_link {waqi : PyVal} {r : AQIData}
    (h : AQIData.init waqi = .ok r) (hv : r.is_valid = true) :
    (r.aqi_category_name, r.aqi_category_theme) = classifyAQI r.overall_aqi := by
  unfold AQIData.init at h
  cases hc : AQIData.initCore waqi with
  | ok r0 =>
    rw [hc] at h
    rw [Except.ok.injEq] at h
    subst h
    exact initCore_category hc hv
  | error e =>
    rw [hc] at h
    cases e <;>
      first
      | (rw [Except.ok.injEq] at h; subst h; exact absurd hv (by simp))
      | simp at h


/-! ## Concrete inputs used by the claims -/

/-- The feed response of the Paris scenario. -/
def parisFeed : PyVal :=
  .dict [("status", .str "ok"), ("data", .dict
    [("aqi", .int 42),
     ("city", .dict [("name", .str "Paris, FR"),
                     ("geo", .list [.float (48.8 : Rat), .float (2.3 : Rat)])]),
     ("time", .dict [("iso", .str "2024-01-01T00:00:00Z")]),
     ("iaqi", .dict [("pm25", .dict [("v", .float (12.5 : Rat))])]),
     ("dominentpol", .str "pm25")])]

/-- The record the constructor builds from `parisFeed`. -/
def parisRecord : AQIData :=
  { is_valid := true, overall_aqi := 42, location_name := "Paris, FR", city := "Paris",
    country := "N/A", latitude := .float (48.8 : Rat), longitude := .float (2.3 : Rat),
    distance_km := 0, timestamp := .iso "2024-01-01T00:00:00Z",
    pollutants := [("pm25", (12.5 : Rat))], dominant_pollutant := "PM25",
    aqi_category_name := "Good", aqi_category_theme := "success" }

/-- An ok-status feed response whose `aqi` value is the non-numeric string
the feed uses for missing data: `int("-")` raises `ValueError`. -/
def badFeed : PyVal :=
  .dict [("status", .str "ok"), ("data", .dict [("aqi", .str "-")])]

/-- An ok-status feed response with a non-numeric pollutant value:
`float("high")` raises `ValueError`. -/
def badPollutantFeed : PyVal :=
  .dict [("status", .str "ok"), ("data", .dict
    [("aqi", .int 42),
     ("iaqi", .dict [("pm25", .dict [("v", .str "high")])])])]

/-- A neutral environment: no IP result, empty geocoder reply, an
error-status feed, storage offline. -/
def envW : Env :=
  { ipResult := Option.none
    geocodeModelAvail := true
    geocodeJson := .ok (.dict [])
    feedRaw := .dict [("status", .str "error"), ("data", .str "Unknown station")]
    aiModelAvail := true
    aiResult := .ok "All clear."
    mongoAvail := false
    fileRead := .ok ()
    saveErr := Option.none }

/-- An IP-geolocation payload lacking the coordinate keys (the shape of a
rate-limited reply): `loc['latitude']` raises `KeyError`. -/
def envNoCoords : Env :=
  { envW with ipResult := some (.dict [("city", .str "Testville"),
                                       ("country_code", .str "TS")]) }

/-- A geocoder reply with null coordinates. -/
def envNull : Env :=
  { envW with geocodeJson := .ok (.dict [("latitude", PyVal.none),
                                         ("longitude", PyVal.none)]) }

/-- A minimal valid record; the analyze preconditions only read validity. -/
def readyRecord : AQIData := { is_valid := true }

/-! ## Claims -/

/-- C1: for every integer index, the constructor's classification — the
fixed ordered table of inclusive ranges, first match wins, defaults
otherwise — agrees exactly with the specification's range table
([0,50] Good/success, [51,100] Moderate/warning, [101,150]
Unhealthy-for-Sensitive/warning, [151,200] Unhealthy/danger, [201,300]
Very-Unhealthy/danger, [301,5000] Hazardous/danger, No-Data/secondary
outside), boundaries included; and every record the constructor completes
as valid carries exactly that classification of its overall index. -/
theorem aqi_category_ranges_match_spec :
    (∀ i : Int, classifyAQI i = specCategory i) ∧
    (∀ (waqi : PyVal) (r : AQIData), AQIData.init waqi = .ok r → r.is_valid = true →
      (r.aqi_category_name, r.aqi_category_theme) = specCategory r.overall_aqi) := by
  have hcl : ∀ i : Int, classifyAQI i = specCategory i := by
    intro i
    unfold classifyAQI aqiCategoryTable specCategory
    by_cases h1 : 0 ≤ i ∧ i ≤ 50
    · simp [List.find?, h1]
    · by_cases h2 : 51 ≤ i ∧ i ≤ 100
      · simp [List.find?, h1, h2]
      · by_cases h3 : 101 ≤ i ∧ i ≤ 150
        · simp [List.find?, h1, h2, h3]
        · by_cases h4 : 151 ≤ i ∧ i ≤ 200
          · simp [List.find?, h1, h2, h3, h4]
          · by_cases h5 : 201 ≤ i ∧ i ≤ 300
            · simp [List.find?, h1, h2, h3, h4, h5]
            · by_cases h6 : 301 ≤ i ∧ i ≤ 5000
              · simp [List.find?, h1, h2, h3, h4, h5, h6]
              · simp [List.find?, h1, h2, h3, h4, h5, h6]
  refine ⟨hcl, ?_⟩
  intro waqi r h hv
  rw [init_category_link h hv]
  exact hcl r.overall_aqi

/-- Witness for C1 at the Paris response: the constructor completes it as
valid and its category fields match the specification table at index 42. -/
theorem aqi_category_ranges_witness :
    AQIData.init parisFeed = Except.ok parisRecord ∧ parisRecord.is_valid = true ∧
    (parisRecord.aqi_category_name, parisRecord.aqi_category_theme) =
      specCategory parisRecord.overall_aqi :=
  ⟨rfl, rfl, aqi_category_ranges_match_spec.2 parisFeed parisRecord rfl rfl⟩

/-- C2 (code bug): exceptions do escape workers.  On an ok-status feed
response whose `aqi` is the string `"-"`, `int()` raises `ValueError`,
which the constructor's catch clause (`KeyError`, `IndexError`,
`TypeError`) misses and `_worker_fetch_aqi_data` — which has no handler —
lets kill the worker thread; likewise `loc['latitude']` in
`_worker_fetch_by_ip` raises `KeyError` on a payload without coordinate
keys. -/
theorem worker_exception_escapes :
    (worker_fetch_aqi_data (.float (48.8 : Rat)) (.float (2.3 : Rat)) badFeed).leaked =
      some (PyExc.valueError "invalid literal for int() with base 10: '-'") ∧
    (worker_fetch_by_ip envNoCoords).leaked = some PyExc.keyError :=
  ⟨rfl, rfl⟩

/-- C3: on every one of the five operation kinds and every outcome branch
the claim enumerates (success, parse error, client error, caught
exception), the busy flag is set true synchronously on the triggering
thread and never cleared there, a worker is spawned, nothing escapes it,
and its callback chain clears the busy flag exactly once, as its final
callback. -/
theorem busy_flag_discipline (inv : OpInvocation) (hv : validInv inv) :
    busyDiscipline (runOp inv) := by
  cases inv with
  | byIP env =>
    obtain ⟨hip, ht⟩ := hv
    unfold runOp fetch_aqi_by_ip_address
    exact ⟨rfl, by simp, by simp [busySetFalseCount], _, rfl, worker_ip_busy hip ht⟩
  | byText entry env =>
    obtain ⟨hq, ht⟩ := hv
    unfold runOp fetch_by_input
    dsimp only
    rw [if_neg (by simpa using hq)]
    by_cases hm : matchCoord (pyStrip entry) = true
    · rw [if_pos hm]
      obtain ⟨a, b, v1, v2, hsplit, h1, h2⟩ := matchCoord_parses hm
      rw [hsplit]
      dsimp only
      rw [h1, h2]
      exact ⟨rfl, by simp, by simp [busySetFalseCount], _, rfl,
        worker_fetch_busy _ _ _ ⟨toString v1, rfl⟩ ⟨toString v2, rfl⟩ ht⟩
    · rw [if_neg hm]
      exact ⟨rfl, by simp, by simp [busySetFalseCount], _, rfl, worker_geocode_busy ht⟩
  | fetchAQI lat lon env =>
    unfold runOp
    exact ⟨rfl, by simp, by simp [busySetFalseCount], _, rfl,
      worker_fetch_busy _ _ _ ⟨toString lat, rfl⟩ ⟨toString lon, rfl⟩ hv⟩
  | askAI ctx q b env =>
    unfold runOp ask_ai_assistant
    exact ⟨rfl, by simp, by simp [busySetFalseCount], _, rfl, worker_ask_busy ctx q env⟩
  | analyze ctx env =>
    obtain ⟨rec, ip⟩ := ctx
    have hv2 : analyzeReady ⟨rec, ip⟩ = true := hv
    unfold analyzeReady at hv2
    cases ip with
    | none => simp at hv2
    | some p =>
      cases rec with
      | none => simp at hv2
      | some d =>
        unfold runOp analyze_img
        dsimp only at hv2 ⊢
        rw [if_pos hv2]
        exact ⟨rfl, by simp, by simp [busySetFalseCount], _, rfl,
          worker_analyze_busy p d env⟩

/-- Witness for C3: a direct feed fetch against an error-status response
observes the discipline. -/
theorem busy_flag_discipline_witness :
    busyDiscipline (runOp (OpInvocation.fetchAQI 0 0 envW)) :=
  busy_flag_discipline (OpInvocation.fetchAQI 0 0 envW)
    ⟨⟨[("status", .str "error"), ("data", .str "Unknown station")], rfl⟩,
     ⟨{ is_valid := false }, rfl⟩⟩

/-- C4 (code bug): for non-ok status or missing `data` the constructor does
complete with `is_valid = false`; but for a malformed payload raising
`ValueError` — here a non-numeric pollutant value — the catch clause
misses the exception and the constructor raises instead of completing. -/
theorem malformed_payload_constructor_behaviour :
    (∀ kvs, AQIData.init (PyVal.dict (("status", PyVal.str "error") :: kvs)) =
      .ok { is_valid := false }) ∧
    AQIData.init (PyVal.dict [("status", PyVal.str "ok")]) = .ok { is_valid := false } ∧
    AQIData.init badPollutantFeed =
      .error (.valueError "could not convert string to float: 'high'") := by
  refine ⟨?_, rfl, rfl⟩
  intro kvs
  unfold AQIData.init AQIData.initCore
  simp [pyGet, lookupKey, List.find?, pyStrEq]

/-- C5: a stripped non-empty query matching the coordinate pattern is
split at its comma, both parts parse as floats, and the operation spawns
the feed worker directly — whose calls never include the geocoder; a
non-matching query is handed to the geocoding worker, whose first external
call is the geocoder on that query. -/
theorem coordinate_pattern_bypasses_geocoder (q : String) (env : Env)
    (hq : ¬ q = "") (hs : pyStrip q = q) :
    (matchCoord q = true →
       ∃ a b lat lon, pySplitList q.data = [a, b] ∧
         parseFloatChars a = some lat ∧ parseFloatChars b = some lon ∧
         fetch_by_input q env =
           ⟨[UIAction.setBusy true], Option.none,
            some (worker_fetch_aqi_data (.float lat) (.float lon) env.feedRaw)⟩ ∧
         (∀ s, ExtCall.geocode s ∉
            (worker_fetch_aqi_data (.float lat) (.float lon) env.feedRaw).calls)) ∧
    (matchCoord q = false →
       fetch_by_input q env =
         ⟨[UIAction.setBusy true, UIAction.status (s!"Finding '{q}'...") "info" true],
          Option.none, some (worker_geocode q env)⟩ ∧
       (worker_geocode q env).calls.head? = some (ExtCall.geocode q)) := by
  constructor
  · intro hm
    obtain ⟨a, b, v1, v2, hsplit, h1, h2⟩ := matchCoord_parses hm
    refine ⟨a, b, v1, v2, hsplit, h1, h2, ?_, ?_⟩
    · unfold fetch_by_input
      rw [hs, if_neg (by simpa using hq), if_pos hm, hsplit]
      dsimp only
      rw [h1, h2]
    · intro s hmem
      rcases worker_fetch_calls_shape (.float v1) (.float v2) env.feedRaw with hc | hc <;>
        rw [hc] at hmem <;> simp at hmem
  · intro hm
    constructor
    · unfold fetch_by_input
      rw [hs, if_neg (by simpa using hq), if_neg (by simp [hm])]
    · unfold worker_geocode
      split <;> rfl

/-- Witness for C5 at the query `"48.8, 2.3"`. -/
theorem coordinate_pattern_witness :
    matchCoord "48.8, 2.3" = true ∧
    (∃ a b lat lon, pySplitList (String.data "48.8, 2.3") = [a, b] ∧
       parseFloatChars a = some lat ∧ parseFloatChars b = some lon ∧
       fetch_by_input "48.8, 2.3" envW =
         ⟨[UIAction.setBusy true], Option.none,
          some (worker_fetch_aqi_data (.float lat) (.float lon) envW.feedRaw)⟩ ∧
       (∀ s, ExtCall.geocode s ∉
          (worker_fetch_aqi_data (.float lat) (.float lon) envW.feedRaw).calls)) :=
  ⟨by decide,
   (coordinate_pattern_bypasses_geocoder "48.8, 2.3" envW (by decide) (by decide)).1
     (by decide)⟩

/-- C6 counterexample: with an image `sky.gif` loaded and a valid record,
analyze-image spawns a background worker — its synchronous phase contains
no validation error, contradicting the claim that an unsupported extension
is reported synchronously with no worker spawned. -/
theorem analyze_gif_spawns_worker :
    (analyze_img ⟨some readyRecord, some "sky.gif"⟩ envW).sync =
      [UIAction.setBusy true, UIAction.status "Analyzing sky image..." "info" true] ∧
    (analyze_img ⟨some readyRecord, some "sky.gif"⟩ envW).worker.isSome = true :=
  ⟨rfl, rfl⟩

/-- C6 as amended: missing-image or absent/invalid-record failures are
reported synchronously via a message box with no worker spawned; an
unsupported file extension is instead detected inside the worker — before
any network or AI call — raised as `ValueError`, caught by the worker's
handler, and reported as a UI-thread error message with the busy flag
cleared. -/
theorem analyze_validation_split :
    (∀ (ctx : AppCtx) (env : Env), analyzeReady ctx = false →
       analyze_img ctx env =
         ⟨[UIAction.infoBox "Analysis Blocked" "Upload image and fetch valid AQI data first."],
          Option.none, Option.none⟩) ∧
    (∀ (p : String) (d : AQIData) (env : Env), ¬ p = "" → d.is_valid = true →
       mimeOf (pyExt p) = Option.none → env.fileRead = .ok () →
       analyze_img ⟨some d, some p⟩ env =
         ⟨[UIAction.setBusy true, UIAction.status "Analyzing sky image..." "info" true],
          Option.none,
          some ⟨[], [UIAction.status "Image analysis failed: Unsupported image format"
                       "danger" false,
                     UIAction.analysisText "Error: Unsupported image format",
                     UIAction.setBusy false], Option.none⟩⟩) := by
  constructor
  · intro ctx env hv
    obtain ⟨rec, ip⟩ := ctx
    have hv2 : analyzeReady ⟨rec, ip⟩ = false := hv
    unfold analyzeReady at hv2
    unfold analyze_img
    cases ip with
    | none => rfl
    | some p =>
      cases rec with
      | none => rfl
      | some d =>
        dsimp only at hv2 ⊢
        rw [if_neg (by simp [hv2])]
  · intro p d env hp hd hm hf
    have hw : worker_analyze_img p d env =
        ⟨[], [UIAction.status "Image analysis failed: Unsupported image format"
                "danger" false,
              UIAction.analysisText "Error: Unsupported image format",
              UIAction.setBusy false], Option.none⟩ := by
      unfold worker_analyze_img
      rw [hf, hm]
      rfl
    unfold analyze_img
    dsimp only
    rw [if_pos (by simp [hp, hd]), hw]

/-- Witness for C6 as amended, at the extension `gif`. -/
theorem analyze_validation_split_witness :
    (¬ "sky.gif" = "" ∧ readyRecord.is_valid = true ∧
     mimeOf (pyExt "sky.gif") = Option.none ∧ envW.fileRead = .ok ()) ∧
    analyze_img ⟨some readyRecord, some "sky.gif"⟩ envW =
      ⟨[UIAction.setBusy true, UIAction.status "Analyzing sky image..." "info" true],
       Option.none,
       some ⟨[], [UIAction.status "Image analysis failed: Unsupported image format"
                    "danger" false,
                  UIAction.analysisText "Error: Unsupported image format",
                  UIAction.setBusy false], Option.none⟩⟩ :=
  ⟨⟨by decide, rfl, rfl, rfl⟩,
   analyze_validation_split.2 "sky.gif" readyRecord envW (by decide) rfl rfl rfl⟩

/-- C7: whenever the geocoding client yields no coordinates — null/absent
fields or any internal failure, all of which surface as `None` — the
locate-by-text worker issues no feed call, reports the not-found status
and error state, and clears the busy flag as its final callback. -/
theorem geocode_failure_reports_not_found (q : String) (env : Env)
    (h : get_coordinates_from_text env.geocodeModelAvail env.geocodeJson q = Option.none) :
    worker_geocode q env =
      ⟨[ExtCall.geocode q],
       [UIAction.status (s!"Could not find '{q}'.") "danger" false,
        UIAction.errorState "Location Not Found" (s!"'{q}' could not be identified."),
        UIAction.setBusy false], Option.none⟩ := by
  unfold worker_geocode
  rw [h]

/-- Witness for C7 at a geocoder reply with null latitude and longitude. -/
theorem geocode_failure_witness :
    get_coordinates_from_text envNull.geocodeModelAvail envNull.geocodeJson "Atlantis" =
      Option.none ∧
    worker_geocode "Atlantis" envNull =
      ⟨[ExtCall.geocode "Atlantis"],
       [UIAction.status "Could not find 'Atlantis'." "danger" false,
        UIAction.errorState "Location Not Found" "'Atlantis' could not be identified.",
        UIAction.setBusy false], Option.none⟩ :=
  ⟨rfl, geocode_failure_reports_not_found "Atlantis" envNull rfl⟩

/-- C8: the storage collaborator's `save_record` never raises to its
caller regardless of its internal outcome, and the analyze-image worker's
scheduled UI callbacks — the already-displayed analysis among them — are
identical whatever the storage outcome, with nothing escaping the
worker. -/
theorem save_record_best_effort :
    (∀ (avail : Bool) (err : Option PyExc), save_record avail err = .ok ()) ∧
    (∀ (p : String) (d : AQIData) (env : Env) (e1 e2 : Option PyExc),
      (worker_analyze_img p d { env with saveErr := e1 }).scheduled =
        (worker_analyze_img p d { env with saveErr := e2 }).scheduled ∧
      (worker_analyze_img p d { env with saveErr := e1 }).leaked = Option.none) := by
  refine ⟨save_record_ok, ?_⟩
  intro p d env e1 e2
  constructor
  · unfold worker_analyze_img
    rw [save_record_ok, save_record_ok]
  · unfold worker_analyze_img analyzeFailTrace
    repeat' split
    all_goals rfl

/-- C9: the Paris scenario response parses into a valid record with index
42, category Good/success, city `"Paris"` (the location name split at its
first comma), the single pollutant reading `pm25 = 12.5`, and the parsed
ISO timestamp. -/
theorem paris_scenario_record : AQIData.init parisFeed = Except.ok parisRecord := rfl

/-- C10: a query that strips to the empty string makes locate-by-text a
complete no-op: no synchronous UI action, no exception, no worker — hence
no busy-flag change, no record or image-path change, and no status
display. -/
theorem empty_query_noop (t : String) (env : Env) (h : pyStrip t = "") :
    fetch_by_input t env = ⟨[], Option.none, Option.none⟩ := by
  unfold fetch_by_input
  rw [h]
  rfl

/-- Witness for C10 at a whitespace-only query. -/
theorem empty_query_noop_witness :
    pyStrip "   " = "" ∧ fetch_by_input "   " envW = ⟨[], Option.none, Option.none⟩ :=
  ⟨by decide, empty_query_noop "   " envW (by decide)⟩
